import Mathlib

/-!
Verification development for a product-catalog management service
(Python source: `product_mcp`).  The data model and the operations of the
persistence gateway (`core/database.py`), the entity validators
(`core/models.py`), the query/aggregation library (`queries/inventory.py`,
`queries/reports.py`) and the relevant tool operations
(`tools/product_tools.py`, `tools/inventory_tools.py`) are shallowly
embedded as executable Lean definitions.  The MongoDB collection is
modelled as a list of documents; the store's single-document operations
(`insert_one` with the unique-sku index, `update_one` with `$set`,
`delete_one`, `find`) are modelled by explicit list transformations.
Machine floats from the source are modelled by `Rat`; timestamps by
integers (milliseconds, matching the source's datetime arithmetic).
Python character-level operations (`str.strip`, `str.lower`, `str.upper`)
are modelled on the Basic Latin range, where they agree with Lean's
`Char.toLower`/`Char.toUpper`.
-/

/-- Python whitespace characters stripped by `str.strip()` (ASCII part:
space, tab, newline, carriage return, vertical tab, form feed). -/
def isPySpace (c : Char) : Bool :=
  decide (c.toNat ∈ ([32, 9, 10, 13, 11, 12] : List Nat))

/-- Strip leading and trailing whitespace from a character list
(the list-level engine of Python `str.strip()`). -/
def stripList (l : List Char) : List Char :=
  ((l.dropWhile isPySpace).reverse.dropWhile isPySpace).reverse

/-- Python `str.strip()`. -/
def pyStrip (s : String) : String :=
  String.mk (stripList s.data)

/-- Python `str.lower()` (Basic Latin range). -/
def pyLower (s : String) : String :=
  String.mk (s.data.map Char.toLower)

/-- Python `str.upper()` (Basic Latin range). -/
def pyUpper (s : String) : String :=
  String.mk (s.data.map Char.toUpper)

/-- The characters admitted by the SKU pattern `[A-Za-z0-9_-]`. -/
def isSkuChar (c : Char) : Bool :=
  c.isAlpha || c.isDigit || c == '_' || c == '-'

/-- Python `re.match(r'^[A-Za-z0-9_-]+$', v) is not None`.  `re.match`
anchors at the start, and an unflagged `$` matches either at the end of
the string or just before a newline that is the last character, so the
pattern also accepts a string of SKU characters followed by one trailing
newline. -/
def reMatchSku (v : String) : Bool :=
  (!v.data.isEmpty && v.data.all isSkuChar)
    || (v.data.getLast? == some '\n' && !v.data.dropLast.isEmpty
          && v.data.dropLast.all isSkuChar)

/-- `ProductBase.validate_sku` (`core/models.py`): rejects input whose
stripped form is empty, rejects input failing the regex match, and
otherwise returns `v.upper()` (of the unstripped input). -/
def validate_sku (v : String) : Option String :=
  if pyStrip v == "" then none
  else if !reMatchSku v then none
  else some (pyUpper v)

/-- `ProductBase.validate_tags` (`core/models.py`):
`list(set(tag.strip().lower() for tag in v if tag.strip()))`.  Python's
`set` deduplicates with unspecified order; we model it with `List.dedup`
(first occurrences kept) and state properties up to membership. -/
def normalize_tags (v : List String) : List String :=
  ((v.filter (fun t => !(pyStrip t == ""))).map (fun t => pyLower (pyStrip t))).dedup

/-- `ProductCategory` (`core/models.py`). -/
inductive ProductCategory where
  | electronics | clothing | food | books | home
  | sports | health | automotive | toys | other
deriving DecidableEq

/-- `ProductStatus` (`core/models.py`). -/
inductive ProductStatus where
  | active | inactive | out_of_stock | discontinued | draft
deriving DecidableEq

/-- A stored product document.  `price` is a Python float, modelled by
`Rat`; `stock` is a Python int; timestamps are integers. -/
structure ProductDoc where
  id : String
  name : String
  description : Option String
  price : Rat
  category : ProductCategory
  status : ProductStatus
  sku : String
  tags : List String
  stock : Int
  createdAt : Int
  updatedAt : Int
deriving DecidableEq

/-- Raw field values of a creation request, before pydantic validation. -/
structure RawProductCreate where
  name : String
  description : Option String
  price : Rat
  category : ProductCategory
  sku : String
  tags : List String
  stock : Int

/-- A validated `ProductCreate` (`core/models.py`): its `sku` has passed
`validate_sku` (hence is uppercased) and its `tags` are normalized. -/
structure ProductCreate where
  name : String
  description : Option String
  price : Rat
  category : ProductCategory
  sku : String
  tags : List String
  stock : Int
deriving DecidableEq

/-- Pydantic validation of `ProductCreate`: the `Field` constraints
(name 1..200 chars, description at most 2000 chars, `price > 0`,
sku 1..50 chars, `stock >= 0`) followed by the field validators
`validate_sku` and `validate_tags`. -/
def mkProductCreate (r : RawProductCreate) : Option ProductCreate :=
  if decide (1 ≤ r.name.length) && decide (r.name.length ≤ 200)
      && (match r.description with
          | some s => decide (s.length ≤ 2000)
          | none => true)
      && decide ((0 : Rat) < r.price)
      && decide (1 ≤ r.sku.length) && decide (r.sku.length ≤ 50)
      && decide ((0 : Int) ≤ r.stock) then
    match validate_sku r.sku with
    | some k =>
        some { name := r.name, description := r.description, price := r.price,
               category := r.category, sku := k, tags := normalize_tags r.tags,
               stock := r.stock }
    | none => none
  else none

/-- `ProductUpdate` (`core/models.py`): every field optional; a field left
as `none` is excluded from the persisted change set by
`update_product`'s `model_dump` filter. -/
structure ProductUpdate where
  name : Option String
  description : Option String
  price : Option Rat
  stock : Option Int
  category : Option ProductCategory
  status : Option ProductStatus
  tags : Option (List String)
deriving DecidableEq

/-- The update request built by the `update_stock` tool:
`ProductUpdate(stock=stock_int)` — only `stock` is present. -/
def stockOnlyUpdate (n : Int) : ProductUpdate :=
  { name := none, description := none, price := none, stock := some n,
    category := none, status := none, tags := none }

/-- True when `model_dump` of the update contains no non-`None` entry. -/
def emptyUpdate (u : ProductUpdate) : Bool :=
  u.name.isNone && u.description.isNone && u.price.isNone && u.stock.isNone
    && u.category.isNone && u.status.isNone && u.tags.isNone

/-- `ProductSearchFilter` (`core/models.py`). -/
structure ProductSearchFilter where
  query : Option String
  category : Option ProductCategory
  status : Option ProductStatus
  min_price : Option Rat
  max_price : Option Rat
  in_stock_only : Bool
  low_stock_only : Bool
  tags : Option (List String)
  limit : Nat
  skip : Nat

/-- `InventorySummary` (`core/models.py`), minus the timestamp. -/
structure CategoryRow where
  category : ProductCategory
  count : Nat
  total_value : Rat
  avg_price : Rat
deriving DecidableEq

structure InventorySummary where
  total_products : Nat
  total_value : Rat
  low_stock_products : Nat
  out_of_stock_products : Nat
  categories_breakdown : List CategoryRow
deriving DecidableEq

/-- A 24-character hexadecimal string, the well-formedness condition of
`bson.ObjectId`; `ObjectId(s)` raises on anything else and every gateway
method catches that, treating the identifier as not found. -/
def validObjectId (s : String) : Bool :=
  s.length == 24 && s.data.all (fun c =>
    c.isDigit || (decide ('a' ≤ c) && decide (c ≤ 'f'))
      || (decide ('A' ≤ c) && decide (c ≤ 'F')))

/-- Insertion of an element into a sorted list (the sorting engine used
to model the store's `sort`; structural recursion so that results
evaluate). -/
def insertSorted {α : Type} (le : α → α → Bool) (x : α) : List α → List α
  | [] => [x]
  | y :: t => if le x y then x :: y :: t else y :: insertSorted le x t

/-- Stable insertion sort modelling the store's `sort` stage. -/
def sortBy {α : Type} (le : α → α → Bool) (l : List α) : List α :=
  l.foldr (insertSorted le) []

/-- Lexicographic order on code points, the store's ordering on string
fields (executable, unlike `String.ltb`). -/
def charListLe : List Char → List Char → Bool
  | [], _ => true
  | _ :: _, [] => false
  | a :: as, b :: bs =>
      if a.toNat < b.toNat then true
      else if b.toNat < a.toNat then false
      else charListLe as bs

def pyStrLe (a b : String) : Bool :=
  charListLe a.data b.data

namespace DatabaseManager

/-- `insert_one` against the collection's unique index on `sku`
(`_create_indexes`): raises `DuplicateKeyError` (modelled as `none`)
when a stored document already carries the same sku, else appends. -/
def insert_one (coll : List ProductDoc) (d : ProductDoc) :
    Option (List ProductDoc) :=
  if coll.any (fun p => p.sku == d.sku) then none
  else some (coll ++ [d])

/-- `DatabaseManager.create_product` (`core/database.py`): stamps
`status=ACTIVE` and both timestamps with `datetime.now()` (modelled by
the explicit `now`), inserts (the store assigns `newId`), and returns the
stored document; on `DuplicateKeyError` it returns `None` and the
collection is untouched.  Result: (returned product, collection after). -/
def create_product (coll : List ProductDoc) (pd : ProductCreate)
    (newId : String) (now : Int) : Option ProductDoc × List ProductDoc :=
  let doc : ProductDoc :=
    { id := newId, name := pd.name, description := pd.description,
      price := pd.price, category := pd.category,
      status := ProductStatus.active, sku := pd.sku, tags := pd.tags,
      stock := pd.stock, createdAt := now, updatedAt := now }
  match insert_one coll doc with
  | none => (none, coll)
  | some coll2 => (some doc, coll2)

/-- `DatabaseManager.get_product_by_id`: `ObjectId(product_id)` raises on
a malformed id (caught, yielding `None`); otherwise `find_one` by id. -/
def get_product_by_id (coll : List ProductDoc) (pid : String) :
    Option ProductDoc :=
  if validObjectId pid then coll.find? (fun p => p.id == pid) else none

/-- `DatabaseManager.get_product_by_sku`: `find_one({"sku": sku.upper()})`. -/
def get_product_by_sku (coll : List ProductDoc) (sku : String) :
    Option ProductDoc :=
  coll.find? (fun p => p.sku == pyUpper sku)

/-- The filter document built by `search_products`, restricted to one
document: free-text match (skipped when `query` is `None` or empty, by
Python truthiness), category/status equality, price range, the stock
clause (`{"$gt": 0}` if `in_stock_only`, elif `{"$lte": threshold}` if
`low_stock_only`), and tag membership (skipped for `None` or `[]`).
`textMatch` abstracts the store's `$text` index semantics. -/
def matchesFilter (textMatch : String → ProductDoc → Bool) (threshold : Int)
    (f : ProductSearchFilter) (p : ProductDoc) : Bool :=
  (match f.query with
   | some q => if q == "" then true else textMatch q p
   | none => true)
  && (match f.category with
      | some c => p.category == c
      | none => true)
  && (match f.status with
      | some s => p.status == s
      | none => true)
  && (match f.min_price with
      | some m => decide (m ≤ p.price)
      | none => true)
  && (match f.max_price with
      | some m => decide (p.price ≤ m)
      | none => true)
  && (if f.in_stock_only then decide (0 < p.stock)
      else if f.low_stock_only then decide (p.stock ≤ threshold)
      else true)
  && (match f.tags with
      | some ts => if ts.isEmpty then true else ts.any (fun t => p.tags.contains t)
      | none => true)

/-- The successful body of `search_products`: filter, sort (by abstract
text score when a non-empty text query is present, else by name
ascending), then `skip`/`limit`. -/
def search_results (textMatch : String → ProductDoc → Bool)
    (score : ProductDoc → Rat) (threshold : Int) (f : ProductSearchFilter)
    (coll : List ProductDoc) : List ProductDoc :=
  let matched := coll.filter (matchesFilter textMatch threshold f)
  let sorted :=
    match f.query with
    | some q =>
        if q == "" then
          sortBy (fun a b : ProductDoc => pyStrLe a.name b.name) matched
        else sortBy (fun a b : ProductDoc => decide (score b ≤ score a)) matched
    | none => sortBy (fun a b : ProductDoc => pyStrLe a.name b.name) matched
  (sorted.drop f.skip).take f.limit

/-- `DatabaseManager.search_products`: the whole body runs under
`try/except Exception`, and any store failure (modelled by
`fault = some e`) is logged and converted to the empty list; a read never
changes the collection, so the state is returned unchanged. -/
def search_products (coll : List ProductDoc) (fault : Option String)
    (textMatch : String → ProductDoc → Bool) (score : ProductDoc → Rat)
    (threshold : Int) (f : ProductSearchFilter) :
    List ProductDoc × List ProductDoc :=
  match fault with
  | some _ => ([], coll)
  | none => (search_results textMatch score threshold f coll, coll)

/-- Application of `{"$set": update_dict}` to one document, where
`update_dict` holds exactly the non-`None` fields of the update plus the
refreshed `updated_at`. -/
def applySet (d : ProductDoc) (u : ProductUpdate) (now : Int) : ProductDoc :=
  { d with
    name := u.name.getD d.name,
    description := (match u.description with
                    | some s => some s
                    | none => d.description),
    price := u.price.getD d.price,
    stock := u.stock.getD d.stock,
    category := u.category.getD d.category,
    status := u.status.getD d.status,
    tags := u.tags.getD d.tags,
    updatedAt := now }

/-- MongoDB `update_one`: rewrites the first document matching the id and
reports `modified_count` (0 when the rewritten document is identical). -/
def update_one (coll : List ProductDoc) (pid : String)
    (f : ProductDoc → ProductDoc) : List ProductDoc × Nat :=
  match coll with
  | [] => ([], 0)
  | d :: rest =>
      if d.id == pid then
        (f d :: rest, if f d == d then 0 else 1)
      else
        let r := update_one rest pid f
        (d :: r.1, r.2)

/-- `DatabaseManager.update_product`: an all-`None` update short-circuits
to `get_product_by_id`; a malformed id raises inside the `try` (caught,
`None`, no write); otherwise `update_one` with `$set`, re-fetching the
document only when `modified_count > 0`. -/
def update_product (coll : List ProductDoc) (pid : String)
    (u : ProductUpdate) (now : Int) : Option ProductDoc × List ProductDoc :=
  if emptyUpdate u then (get_product_by_id coll pid, coll)
  else if !validObjectId pid then (none, coll)
  else
    let r := update_one coll pid (fun d => applySet d u now)
    if 0 < r.2 then (get_product_by_id r.1 pid, r.1) else (none, r.1)

/-- MongoDB `delete_one`: removes the first document matching the id and
reports `deleted_count`. -/
def delete_one (coll : List ProductDoc) (pid : String) :
    List ProductDoc × Nat :=
  match coll with
  | [] => ([], 0)
  | d :: rest =>
      if d.id == pid then (rest, 1)
      else
        let r := delete_one rest pid
        (d :: r.1, r.2)

/-- `DatabaseManager.delete_product`: malformed ids raise (caught,
`False`, no write); otherwise `delete_one`, reporting
`deleted_count > 0`. -/
def delete_product (coll : List ProductDoc) (pid : String) :
    Bool × List ProductDoc :=
  if !validObjectId pid then (false, coll)
  else
    let r := delete_one coll pid
    (0 < r.2, r.1)

/-- The single row produced by the global `$group` stage of
`get_inventory_summary`; a `$group` over an empty collection emits no
row, modelled by `none`. -/
structure SummaryRow where
  total_products : Nat
  total_value : Rat
  low_stock_count : Nat
  out_of_stock_count : Nat

def summaryGroup (coll : List ProductDoc) (threshold : Int) :
    Option SummaryRow :=
  match coll with
  | [] => none
  | _ =>
      some { total_products := coll.length,
             total_value := (coll.map (fun p => p.price * (p.stock : Rat))).sum,
             low_stock_count := (coll.filter (fun p => decide (p.stock ≤ threshold))).length,
             out_of_stock_count := (coll.filter (fun p => p.stock == 0)).length }

/-- The per-category `$group` stage of `get_inventory_summary`, sorted by
descending count. -/
def categoryRow (coll : List ProductDoc) (c : ProductCategory) : CategoryRow :=
  let group := coll.filter (fun p => p.category == c)
  { category := c, count := group.length,
    total_value := (group.map (fun p => p.price * (p.stock : Rat))).sum,
    avg_price := (group.map (fun p => p.price)).sum / (group.length : Rat) }

def categories_breakdown (coll : List ProductDoc) : List CategoryRow :=
  sortBy (fun a b : CategoryRow => decide (b.count ≤ a.count))
    (((coll.map (fun p => p.category)).dedup).map (categoryRow coll))

/-- `DatabaseManager.get_inventory_summary`: assembles the two
aggregations, falling back to the all-zero summary when the global group
emits no row. -/
def get_inventory_summary (coll : List ProductDoc) (threshold : Int) :
    InventorySummary :=
  match summaryGroup coll threshold with
  | some s =>
      { total_products := s.total_products, total_value := s.total_value,
        low_stock_products := s.low_stock_count,
        out_of_stock_products := s.out_of_stock_count,
        categories_breakdown := categories_breakdown coll }
  | none =>
      { total_products := 0, total_value := 0, low_stock_products := 0,
        out_of_stock_products := 0, categories_breakdown := [] }

end DatabaseManager

/-- The result envelope returned by tool operations (the JSON dict keys
used by `delete_product` in `tools/product_tools.py`). -/
structure ToolResult where
  success : Bool
  message : Option String
  error : Option String
  warning : Option String
deriving DecidableEq

namespace ProductTools

/-- The `delete_product` tool (`tools/product_tools.py`): without
`confirm` (a keyword defaulting to `False`) it returns the confirmation
error before looking anything up; with it, it resolves the identifier by
SKU or id and calls the gateway's delete. -/
def delete_product (coll : List ProductDoc) (identifier : String)
    (by_sku : Bool) (confirm : Bool) : ToolResult × List ProductDoc :=
  if !confirm then
    ({ success := false, message := none,
       error := some ("Deletion requires confirmation. Set confirm=True to proceed."),
       warning := some ("This action cannot be undone.") }, coll)
  else
    let product :=
      if by_sku then DatabaseManager.get_product_by_sku coll identifier
      else DatabaseManager.get_product_by_id coll identifier
    match product with
    | none =>
        ({ success := false, message := none,
           error := some ("Product not found"), warning := none }, coll)
    | some p =>
        let r := DatabaseManager.delete_product coll p.id
        if r.1 then
          ({ success := true,
             message := some ("Product " ++ p.name ++ " (SKU: " ++ p.sku ++ ") deleted successfully"),
             error := none, warning := none }, r.2)
        else
          ({ success := false, message := none,
             error := some ("Failed to delete product"), warning := none }, r.2)

end ProductTools

/-- A BSON-like value, the shape of aggregation-pipeline specifications.
`time` carries a clock reading (milliseconds); `inf` is Python's
`float('inf')` used in `$bucket` boundaries. -/
inductive Bson where
  | null
  | bool (b : Bool)
  | int (n : Int)
  | str (s : String)
  | time (t : Int)
  | inf
  | arr (elems : List Bson)
  | doc (fields : List (String × Bson))

instance : Coe String Bson := ⟨Bson.str⟩

instance (n : Nat) : OfNat Bson n := ⟨Bson.int (Int.ofNat n)⟩

/-- The top-level stage operators of a pipeline (each stage document's
keys). -/
def stageNames (stages : List Bson) : List String :=
  (stages.map (fun st =>
    match st with
    | Bson.doc kvs => kvs.map (fun kv => kv.1)
    | _ => [])).flatten

/-- True when no stage is one of MongoDB's two writing stages, i.e. the
pipeline cannot mutate persisted data. -/
def readOnlyStages (stages : List Bson) : Bool :=
  (stageNames stages).all (fun s => !(s == "$out") && !(s == "$merge"))

def getKey (k : String) : Bson → Option Bson
  | Bson.doc kvs => kvs.lookup k
  | _ => none

def getIdx (i : Nat) : Bson → Option Bson
  | Bson.arr xs => xs.get? i
  | _ => none

/-- Python `x or y` on an optional int: `None` and `0` are both falsy. -/
def pyOrInt (x : Option Int) (y : Int) : Int :=
  match x with
  | none => y
  | some v => if v == 0 then y else v

namespace InventoryQueries

/-- `InventoryQueries.low_stock_analysis` (`queries/inventory.py`).
`default` is `settings.low_stock_threshold`; the function re-applies
Python `or` to its own argument. -/
def low_stock_analysis (threshold : Option Int) (default : Int) : List Bson :=
  let stock_threshold := pyOrInt threshold default
  [ Bson.doc [("$match", Bson.doc
      [("stock", Bson.doc [("$lte", Bson.int stock_threshold)]),
       ("status", Bson.doc [("$ne", "discontinued")])])],
    Bson.doc [("$addFields", Bson.doc
      [("urgency_level", Bson.doc
         [("$switch", Bson.doc
            [("branches", Bson.arr
               [Bson.doc [("case", Bson.doc [("$eq", Bson.arr ["$stock", 0])]),
                          ("then", "critical")],
                Bson.doc [("case", Bson.doc [("$lte", Bson.arr ["$stock", 5])]),
                          ("then", "high")],
                Bson.doc [("case", Bson.doc [("$lte", Bson.arr
                             ["$stock", Bson.int stock_threshold])]),
                          ("then", "medium")]]),
             ("default", "low")])]),
       ("reorder_priority", Bson.doc
         [("$multiply", Bson.arr
            ["$price",
             Bson.doc [("$subtract", Bson.arr
               [Bson.int stock_threshold, "$stock"])]])])])],
    Bson.doc [("$project", Bson.doc
      [("name", 1), ("sku", 1), ("category", 1),
       ("current_stock", "$stock"), ("price", 1), ("urgency_level", 1),
       ("reorder_priority", Bson.doc
         [("$round", Bson.arr ["$reorder_priority", 2])]),
       ("estimated_days_left", Bson.doc
         [("$cond", Bson.arr
            [Bson.doc [("$eq", Bson.arr ["$stock", 0])],
             0,
             Bson.doc [("$multiply", Bson.arr ["$stock", 30])]])]),
       ("potential_lost_revenue", Bson.doc
         [("$round", Bson.arr
            [Bson.doc [("$multiply", Bson.arr
               ["$price",
                Bson.doc [("$subtract", Bson.arr
                  [Bson.int stock_threshold, "$stock"])]])],
             2])])])],
    Bson.doc [("$sort", Bson.doc [("reorder_priority", Bson.int (-1))])] ]

/-- `InventoryQueries.inventory_turnover_analysis`
(`queries/inventory.py`).  The source calls `datetime.now()` twice while
building the pipeline; `now` models that clock reading (the two Python
readings are microseconds apart but both non-constant across calls). -/
def inventory_turnover_analysis (now : Int) (days : Int) : List Bson :=
  [ Bson.doc [("$addFields", Bson.doc
      [("days_in_inventory", Bson.doc
         [("$divide", Bson.arr
            [Bson.doc [("$subtract", Bson.arr [Bson.time now, "$created_at"])],
             Bson.int 86400000])]),
       ("inventory_value", Bson.doc
         [("$multiply", Bson.arr ["$stock", "$price"])]),
       ("turnover_score", Bson.doc
         [("$cond", Bson.arr
            [Bson.doc [("$eq", Bson.arr ["$stock", 0])],
             0,
             Bson.doc [("$divide", Bson.arr
               [Bson.doc [("$multiply", Bson.arr ["$price", 365])],
                Bson.doc [("$multiply", Bson.arr
                  [Bson.doc [("$divide", Bson.arr
                     [Bson.doc [("$subtract", Bson.arr
                        [Bson.time now, "$created_at"])],
                      Bson.int 86400000])],
                   Bson.doc [("$multiply", Bson.arr
                     ["$stock", "$price"])]])]])]])])])],
    Bson.doc [("$project", Bson.doc
      [("name", 1), ("sku", 1), ("category", 1), ("stock", 1), ("price", 1),
       ("inventory_value", Bson.doc
         [("$round", Bson.arr ["$inventory_value", 2])]),
       ("days_in_inventory", Bson.doc
         [("$round", Bson.arr ["$days_in_inventory", 0])]),
       ("turnover_classification", Bson.doc
         [("$switch", Bson.doc
            [("branches", Bson.arr
               [Bson.doc [("case", Bson.doc [("$eq", Bson.arr ["$stock", 0])]),
                          ("then", "out_of_stock")],
                Bson.doc [("case", Bson.doc [("$gt", Bson.arr
                             ["$days_in_inventory", 180])]),
                          ("then", "slow_moving")],
                Bson.doc [("case", Bson.doc [("$gt", Bson.arr
                             ["$days_in_inventory", 90])]),
                          ("then", "medium_moving")],
                Bson.doc [("case", Bson.doc [("$lte", Bson.arr
                             ["$days_in_inventory", 90])]),
                          ("then", "fast_moving")]]),
             ("default", "unknown")])]),
       ("restock_recommendation", Bson.doc
         [("$switch", Bson.doc
            [("branches", Bson.arr
               [Bson.doc [("case", Bson.doc [("$eq", Bson.arr ["$stock", 0])]),
                          ("then", "urgent_restock")],
                Bson.doc [("case", Bson.doc [("$lte", Bson.arr ["$stock", 5])]),
                          ("then", "restock_soon")],
                Bson.doc [("case", Bson.doc [("$gt", Bson.arr
                             ["$days_in_inventory", 180])]),
                          ("then", "reduce_stock")],
                Bson.doc [("case", Bson.doc [("$gt", Bson.arr
                             ["$days_in_inventory", 90])]),
                          ("then", "monitor_closely")]]),
             ("default", "maintain_current")])])])],
    Bson.doc [("$sort", Bson.doc [("days_in_inventory", Bson.int (-1))])] ]

end InventoryQueries

namespace ReportsQueries

/-- `ReportsQueries.financial_performance_report` (`queries/reports.py`):
`cutoff_date = datetime.now() - timedelta(days=days)`, embedded in the
`is_recent` comparison; `now` models the clock reading in milliseconds,
so the cutoff is `now - days * 86400000`. -/
def financial_performance_report (now : Int) (days : Int) : List Bson :=
  let cutoff_date : Int := now - days * 86400000
  [ Bson.doc [("$addFields", Bson.doc
      [("is_recent", Bson.doc
         [("$gte", Bson.arr ["$created_at", Bson.time cutoff_date])]),
       ("inventory_value", Bson.doc
         [("$multiply", Bson.arr ["$price", "$stock"])])])],
    Bson.doc [("$facet", Bson.doc
      [("current_period", Bson.arr
         [Bson.doc [("$group", Bson.doc
            [("_id", Bson.null),
             ("total_value", Bson.doc [("$sum", "$inventory_value")]),
             ("new_products_value", Bson.doc
               [("$sum", Bson.doc
                  [("$cond", Bson.arr ["$is_recent", "$inventory_value", 0])])]),
             ("avg_price", Bson.doc [("$avg", "$price")]),
             ("price_distribution", Bson.doc
               [("$push", Bson.doc
                  [("category", "$category"), ("price", "$price"),
                   ("value", "$inventory_value")])])])]]),
       ("category_financials", Bson.arr
         [Bson.doc [("$group", Bson.doc
            [("_id", "$category"),
             ("total_value", Bson.doc [("$sum", "$inventory_value")]),
             ("avg_price", Bson.doc [("$avg", "$price")]),
             ("product_count", Bson.doc [("$sum", 1)]),
             ("new_products", Bson.doc
               [("$sum", Bson.doc
                  [("$cond", Bson.arr ["$is_recent", 1, 0])])])])],
          Bson.doc [("$project", Bson.doc
            [("category", "$_id"),
             ("financial_metrics", Bson.doc
               [("total_value", Bson.doc
                  [("$round", Bson.arr ["$total_value", 2])]),
                ("avg_price", Bson.doc
                  [("$round", Bson.arr ["$avg_price", 2])]),
                ("product_count", "$product_count"),
                ("value_per_product", Bson.doc
                  [("$round", Bson.arr
                     [Bson.doc [("$divide", Bson.arr
                        ["$total_value", "$product_count"])],
                      2])])]),
             ("growth_indicators", Bson.doc
               [("new_products", "$new_products"),
                ("growth_rate", Bson.doc
                  [("$round", Bson.arr
                     [Bson.doc [("$multiply", Bson.arr
                        [Bson.doc [("$divide", Bson.arr
                           ["$new_products", "$product_count"])],
                         100])],
                      1])])]),
             ("_id", 0)])],
          Bson.doc [("$sort", Bson.doc
            [("financial_metrics.total_value", Bson.int (-1))])]]),
       ("price_segments", Bson.arr
         [Bson.doc [("$bucket", Bson.doc
            [("groupBy", "$price"),
             ("boundaries", Bson.arr [0, 50, 100, 200, 500, 1000, Bson.inf]),
             ("default", "other"),
             ("output", Bson.doc
               [("count", Bson.doc [("$sum", 1)]),
                ("total_value", Bson.doc [("$sum", "$inventory_value")]),
                ("avg_stock", Bson.doc [("$avg", "$stock")])])])]])])] ]

end ReportsQueries

/-- The path to the embedded clock reading in the turnover pipeline:
stage 0, `$addFields. days_in_inventory.$divide[0].$subtract[0]`. -/
def nowLeafTurnover (p : List Bson) : Option Bson :=
  p.head? >>= getKey ("$addFields") >>= getKey ("days_in_inventory")
    >>= getKey ("$divide") >>= getIdx 0 >>= getKey ("$subtract") >>= getIdx 0

/-- The path to the embedded cutoff date in the financial report:
stage 0, `$addFields. is_recent.$gte[1]`. -/
def cutoffLeafReport (p : List Bson) : Option Bson :=
  p.head? >>= getKey ("$addFields") >>= getKey ("is_recent")
    >>= getKey ("$gte") >>= getIdx 1

/-- The data returned by a successful `check_low_stock` call that the
threshold claim is about: the `threshold_used` field of the response and
the pipeline handed to the store. -/
structure LowStockResult where
  thresholdUsed : Int
  pipeline : List Bson

namespace InventoryTools

/-- The `check_low_stock` tool (`tools/inventory_tools.py`):
`stock_threshold = threshold or settings.low_stock_threshold` (Python
`or`: `None` and `0` are both replaced by the default), then negative
thresholds are rejected, then the pipeline is built. -/
def check_low_stock (threshold : Option Int) (default : Int) :
    Except String LowStockResult :=
  let stock_threshold := pyOrInt threshold default
  if stock_threshold < 0 then
    Except.error "Stock threshold must be non-negative"
  else
    Except.ok { thresholdUsed := stock_threshold,
                pipeline := InventoryQueries.low_stock_analysis
                  (some stock_threshold) default }

end InventoryTools

/-- The three-product fixture from the spec: prices 10, 20, 30 with
stocks 1, 2, 0. -/
def fixtureProducts : List ProductDoc :=
  [ { id := "aaaaaaaaaaaaaaaaaaaaaaa1", name := "A", description := none,
      price := 10, category := ProductCategory.electronics,
      status := ProductStatus.active, sku := "SKU-A", tags := [],
      stock := 1, createdAt := 0, updatedAt := 0 },
    { id := "aaaaaaaaaaaaaaaaaaaaaaa2", name := "B", description := none,
      price := 20, category := ProductCategory.books,
      status := ProductStatus.active, sku := "SKU-B", tags := [],
      stock := 2, createdAt := 0, updatedAt := 0 },
    { id := "aaaaaaaaaaaaaaaaaaaaaaa3", name := "C", description := none,
      price := 30, category := ProductCategory.books,
      status := ProductStatus.active, sku := "SKU-C", tags := [],
      stock := 0, createdAt := 0, updatedAt := 0 } ]

/-- Concrete document for instantiating the update-frame theorem. -/
def updateWitnessDoc : ProductDoc :=
  { id := "aaaaaaaaaaaaaaaaaaaaaaa1", name := "A", description := none,
    price := 10, category := ProductCategory.electronics,
    status := ProductStatus.active, sku := "SKU-A", tags := ["x"],
    stock := 1, createdAt := 0, updatedAt := 0 }

/-- `updateWitnessDoc` after a stock-only update to 5 at time 7. -/
def updateWitnessDocAfter : ProductDoc :=
  { id := "aaaaaaaaaaaaaaaaaaaaaaa1", name := "A", description := none,
    price := 10, category := ProductCategory.electronics,
    status := ProductStatus.active, sku := "SKU-A", tags := ["x"],
    stock := 5, createdAt := 0, updatedAt := 7 }

/-- The stock clause that `search_products` puts into the Mongo query
document: `{"$gt": 0}` when `in_stock_only`, else `{"$lte": threshold}`
when `low_stock_only`, else none (the `if`/`elif` of
`core/database.py`). -/
inductive StockClause where
  | noClause
  | gtZero
  | leThreshold
deriving DecidableEq

def stockClause (f : ProductSearchFilter) : StockClause :=
  if f.in_stock_only then StockClause.gtZero
  else if f.low_stock_only then StockClause.leThreshold
  else StockClause.noClause
theorem toNat_ofNat_valid {n : Nat} (h : n < 55296) : (Char.ofNat n).toNat = n := by
  rw [Char.ofNat, dif_pos (Or.inl h)]
  rfl

theorem toNat_toLower (c : Char) :
    (Char.toLower c).toNat =
      if 65 ≤ c.toNat ∧ c.toNat ≤ 90 then c.toNat + 32 else c.toNat := by
  by_cases h : 65 ≤ c.toNat ∧ c.toNat ≤ 90
  · rw [if_pos h]
    show (if c.toNat ≥ 65 ∧ c.toNat ≤ 90 then Char.ofNat (c.toNat + 32) else c).toNat = c.toNat + 32
    rw [if_pos ⟨h.1, h.2⟩]
    exact toNat_ofNat_valid (by omega)
  · rw [if_neg h]
    show (if c.toNat ≥ 65 ∧ c.toNat ≤ 90 then Char.ofNat (c.toNat + 32) else c).toNat = c.toNat
    rw [if_neg h]

theorem toLower_eq_self (x : Char) (hx : ¬(65 ≤ x.toNat ∧ x.toNat ≤ 90)) :
    Char.toLower x = x := by
  show (if x.toNat ≥ 65 ∧ x.toNat ≤ 90 then Char.ofNat (x.toNat + 32) else x) = x
  rw [if_neg hx]

theorem isPySpace_toLower (c : Char) :
    isPySpace (Char.toLower c) = isPySpace c := by
  unfold isPySpace
  rw [toNat_toLower]
  by_cases h : 65 ≤ c.toNat ∧ c.toNat ≤ 90
  · rw [if_pos h]
    apply decide_eq_decide.mpr
    simp only [List.mem_cons, List.not_mem_nil, or_false]
    omega
  · rw [if_neg h]

theorem toLower_toLower (c : Char) :
    Char.toLower (Char.toLower c) = Char.toLower c := by
  by_cases h : 65 ≤ c.toNat ∧ c.toNat ≤ 90
  · have ht : (Char.toLower c).toNat = c.toNat + 32 := by
      rw [toNat_toLower, if_pos h]
    exact toLower_eq_self _ (by omega)
  · have e := toLower_eq_self c h
    rw [e]
    exact e

theorem dropWhile_dropWhile (p : Char → Bool) (l : List Char) :
    (l.dropWhile p).dropWhile p = l.dropWhile p := by
  induction l with
  | nil => rfl
  | cons a t ih =>
    by_cases h : p a = true
    · simp [List.dropWhile_cons, h, ih]
    · simp [List.dropWhile_cons, h]

theorem dropWhile_head_not (p : Char → Bool) :
    ∀ {l : List Char} {a : Char} {t : List Char},
      l.dropWhile p = a :: t → p a = false := by
  intro l
  induction l with
  | nil => intro a t h; simp [List.dropWhile] at h
  | cons b r ih =>
    intro a t h
    rw [List.dropWhile_cons] at h
    split at h
    · exact ih h
    · next hb =>
      cases h
      simpa using hb

theorem stripList_idem (l : List Char) :
    stripList (stripList l) = stripList l := by
  unfold stripList
  set A := l.dropWhile isPySpace with hA
  set C := A.reverse.dropWhile isPySpace with hC
  have step1 : C.reverse.dropWhile isPySpace = C.reverse := by
    cases hCr : C.reverse with
    | nil => rfl
    | cons a t =>
      have hpre : C.reverse <+: A := by
        have hs : C <:+ A.reverse := by
          rw [hC]; exact List.dropWhile_suffix _
        have h2 := List.reverse_prefix.mpr hs
        rwa [List.reverse_reverse] at h2
      obtain ⟨s, hsA⟩ := hpre
      have hAeq : l.dropWhile isPySpace = a :: (t ++ s) := by
        rw [← hA, ← hsA, hCr]
        rfl
      have hpa := dropWhile_head_not isPySpace hAeq
      rw [List.dropWhile_cons, if_neg (by simp [hpa])]
  rw [step1, List.reverse_reverse, hC, dropWhile_dropWhile]

theorem dropWhile_map_sameSpace (f : Char → Char)
    (hf : ∀ c, isPySpace (f c) = isPySpace c) (m : List Char) :
    (m.map f).dropWhile isPySpace = (m.dropWhile isPySpace).map f := by
  rw [List.dropWhile_map,
    show (isPySpace ∘ f) = isPySpace from funext hf]

theorem stripList_map (f : Char → Char)
    (hf : ∀ c, isPySpace (f c) = isPySpace c) (l : List Char) :
    stripList (l.map f) = (stripList l).map f := by
  unfold stripList
  rw [dropWhile_map_sameSpace f hf, ← List.map_reverse,
    dropWhile_map_sameSpace f hf, ← List.map_reverse]

theorem pyStrip_pyStrip (s : String) : pyStrip (pyStrip s) = pyStrip s := by
  unfold pyStrip
  rw [show (String.mk (stripList s.data)).data = stripList s.data from rfl,
    stripList_idem]

theorem pyStrip_pyLower (s : String) :
    pyStrip (pyLower s) = pyLower (pyStrip s) := by
  unfold pyStrip pyLower
  rw [show (String.mk (s.data.map Char.toLower)).data = s.data.map Char.toLower from rfl,
    show (String.mk (stripList s.data)).data = stripList s.data from rfl,
    stripList_map _ isPySpace_toLower]

theorem pyLower_pyLower (s : String) : pyLower (pyLower s) = pyLower s := by
  unfold pyLower
  rw [show (String.mk (s.data.map Char.toLower)).data = s.data.map Char.toLower from rfl,
    List.map_map,
    show (Char.toLower ∘ Char.toLower) = Char.toLower from funext toLower_toLower]

theorem pyLower_eq_empty_iff (s : String) : pyLower s = "" ↔ s = "" := by
  unfold pyLower
  constructor
  · intro h
    have h2 : s.data.map Char.toLower = ([] : List Char) := congrArg String.data h
    have h3 : s.data = [] := by simpa using h2
    cases s with
    | mk d => cases h3; rfl
  · intro h
    rw [h]
    rfl

/-- C8: tag normalization is idempotent up to set semantics — every
string is a member of `normalize_tags (normalize_tags x)` exactly when
it is a member of `normalize_tags x` (Python's `set` has unspecified
order, so equality as sets is the faithful reading). -/
theorem c8_normalize_tags_idempotent :
    ∀ (x : List String) (t : String),
      t ∈ normalize_tags (normalize_tags x) ↔ t ∈ normalize_tags x := by
  intro x t
  have key : ∀ u ∈ normalize_tags x,
      (!(pyStrip u == "")) = true ∧ pyLower (pyStrip u) = u := by
    intro u hu
    unfold normalize_tags at hu
    have hu2 := List.mem_dedup.mp hu
    obtain ⟨t0, ht0, rfl⟩ := List.mem_map.mp hu2
    have ht0f := (List.mem_filter.mp ht0).2
    have hne : pyStrip t0 ≠ "" := by
      intro hcon
      rw [hcon] at ht0f
      simp at ht0f
    constructor
    · rw [pyStrip_pyLower, pyStrip_pyStrip]
      simpa [pyLower_eq_empty_iff] using hne
    · rw [pyStrip_pyLower, pyStrip_pyStrip, pyLower_pyLower]
  have h1 : (normalize_tags x).filter (fun u => !(pyStrip u == "")) = normalize_tags x :=
    List.filter_eq_self.mpr (fun a ha => (key a ha).1)
  have h2 : (normalize_tags x).map (fun u => pyLower (pyStrip u)) = normalize_tags x := by
    have hcg := List.map_congr_left (l := normalize_tags x)
      (f := fun u => pyLower (pyStrip u)) (g := id) (fun a ha => (key a ha).2)
    rw [hcg, List.map_id]
  have hN : normalize_tags (normalize_tags x) =
      (((normalize_tags x).filter (fun u => !(pyStrip u == ""))).map
        (fun u => pyLower (pyStrip u))).dedup := rfl
  rw [hN, h1, h2]
  exact List.mem_dedup

theorem validate_sku_eq_upper {v k : String} (h : validate_sku v = some k) :
    k = pyUpper v := by
  unfold validate_sku at h
  split at h
  · exact absurd h (by simp)
  · split at h
    · exact absurd h (by simp)
    · exact (Option.some.inj h).symm

theorem mkProductCreate_sku {r : RawProductCreate} {pc : ProductCreate}
    (h : mkProductCreate r = some pc) : pc.sku = pyUpper r.sku := by
  unfold mkProductCreate at h
  split at h
  · split at h
    · next k hk =>
      cases Option.some.inj h
      exact validate_sku_eq_upper hk
    · exact absurd h (by simp)
  · exact absurd h (by simp)

/-- C1: a creation request whose (already case-normalized) SKU equals the
SKU of any stored document makes `create_product` return `None` with the
collection unchanged — nothing inserted, overwritten or partially
written; and pydantic validation uppercases the SKU, so two raw requests
whose SKUs differ only by case produce the same stored SKU and the
second create is rejected as a duplicate. -/
theorem c1_create_rejects_duplicate_sku :
    (∀ (coll : List ProductDoc) (pd : ProductCreate) (newId : String)
        (now : Int) (p : ProductDoc), p ∈ coll → p.sku = pd.sku →
        DatabaseManager.create_product coll pd newId now = (none, coll)) ∧
    (∀ (r1 r2 : RawProductCreate) (pc1 pc2 : ProductCreate),
        mkProductCreate r1 = some pc1 → mkProductCreate r2 = some pc2 →
        pyUpper r1.sku = pyUpper r2.sku → pc1.sku = pc2.sku) := by
  constructor
  · intro coll pd newId now p hp hsku
    have hany : coll.any (fun q => q.sku == pd.sku) = true :=
      List.any_eq_true.mpr ⟨p, hp, by simp [hsku]⟩
    simp [DatabaseManager.create_product, DatabaseManager.insert_one, hany]
  · intro r1 r2 pc1 pc2 h1 h2 hup
    rw [mkProductCreate_sku h1, mkProductCreate_sku h2, hup]

theorem c1_witness :
    DatabaseManager.create_product fixtureProducts
      { name := "Y", description := none, price := 5,
        category := ProductCategory.electronics, sku := "SKU-A", tags := [],
        stock := 0 } "bbbbbbbbbbbbbbbbbbbbbbbb" 99 = (none, fixtureProducts) :=
  c1_create_rejects_duplicate_sku.1 fixtureProducts _ _ 99
    { id := "aaaaaaaaaaaaaaaaaaaaaaa1", name := "A", description := none,
      price := 10, category := ProductCategory.electronics,
      status := ProductStatus.active, sku := "SKU-A", tags := [],
      stock := 1, createdAt := 0, updatedAt := 0 }
    (by unfold fixtureProducts; exact List.mem_cons_self _ _) rfl

/-- C2: for every stored collection, `get_inventory_summary` reports
`total_value` equal to the sum of price times stock over all stored
products and `out_of_stock_products` equal to the number of products
with stock 0; on the fixture of three products priced 10, 20, 30 with
stocks 1, 2, 0 this gives 50 and 1. -/
theorem c2_inventory_summary_totals :
    (∀ (coll : List ProductDoc) (threshold : Int),
        (DatabaseManager.get_inventory_summary coll threshold).total_value
            = (coll.map (fun p => p.price * (p.stock : Rat))).sum ∧
        (DatabaseManager.get_inventory_summary coll threshold).out_of_stock_products
            = (coll.filter (fun p => p.stock == 0)).length) ∧
    ((DatabaseManager.get_inventory_summary fixtureProducts 10).total_value = 50 ∧
     (DatabaseManager.get_inventory_summary fixtureProducts 10).out_of_stock_products = 1) := by
  constructor
  · intro coll threshold
    cases coll with
    | nil =>
      constructor
      · simp [DatabaseManager.get_inventory_summary, DatabaseManager.summaryGroup]
      · simp [DatabaseManager.get_inventory_summary, DatabaseManager.summaryGroup]
    | cons a l =>
      constructor
      · simp [DatabaseManager.get_inventory_summary, DatabaseManager.summaryGroup]
      · simp [DatabaseManager.get_inventory_summary, DatabaseManager.summaryGroup]
  · constructor
    · norm_num [DatabaseManager.get_inventory_summary, DatabaseManager.summaryGroup,
        fixtureProducts]
    · norm_num [DatabaseManager.get_inventory_summary, DatabaseManager.summaryGroup,
        fixtureProducts]

/-- C3: evidence for the code bug.  `validate_sku` rejects the space in
the string AB-space-CD and accepts AB-CD_12 unchanged, as the claim
says; but because `re.match` with an unflagged `$` also matches just
before a trailing newline, the input AB-newline is accepted and returned
as-is (uppercased), even though it contains a character outside
`[A-Za-z0-9_-]` and differs from the uppercased trimmed form AB. -/
theorem c3_validate_sku_trailing_newline :
    validate_sku ("AB CD") = none ∧
    validate_sku ("AB-CD_12") = some ("AB-CD_12") ∧
    validate_sku ("AB\n") = some ("AB\n") ∧
    ("AB\n").data.all isSkuChar = false ∧
    pyUpper (pyStrip ("AB\n")) = "AB" :=
  ⟨by decide, by decide, by decide, by decide, by decide⟩

/-- C6: calling the `delete_product` tool with `confirm` unset/false
returns the confirmation failure (`success = false`) and the unchanged
collection, for every identifier and every `by_sku` flag — the result is
a constant, so the rejection happens before any lookup of the
identifier. -/
theorem c6_delete_without_confirm :
    ∀ (coll : List ProductDoc) (identifier : String) (by_sku : Bool),
      ProductTools.delete_product coll identifier by_sku false =
        ({ success := false, message := none,
           error := some ("Deletion requires confirmation. Set confirm=True to proceed."),
           warning := some ("This action cannot be undone.") }, coll) := by
  intro coll identifier by_sku
  rfl

/-- C7: when the underlying store operation fails (any raised error
`e`), the gateway's `search_products` returns the empty list — the error
is never propagated — and the stored collection is unchanged by the
failed read. -/
theorem c7_search_fail_soft :
    ∀ (coll : List ProductDoc) (e : String)
      (textMatch : String → ProductDoc → Bool) (score : ProductDoc → Rat)
      (threshold : Int) (f : ProductSearchFilter),
      DatabaseManager.search_products coll (some e) textMatch score threshold f
        = ([], coll) := by
  intro coll e textMatch score threshold f
  rfl

/-- C9 (amended): every pipeline builder is a pure function of its
parameters together with the clock reading taken at call time, and emits
only read-only stages (never `$out`/`$merge`), so no builder mutates
persisted data; but `inventory_turnover_analysis` and
`financial_performance_report` embed the call-time clock reading in the
returned pipeline (at the exhibited positions), so they are
deterministic only for a fixed clock reading, not given `days` alone. -/
theorem c9_pipelines_clock_and_readonly :
    ∀ (now days : Int) (threshold : Option Int) (default : Int),
      stageNames (InventoryQueries.inventory_turnover_analysis now days)
          = ["$addFields", "$project", "$sort"] ∧
      stageNames (InventoryQueries.low_stock_analysis threshold default)
          = ["$match", "$addFields", "$project", "$sort"] ∧
      stageNames (ReportsQueries.financial_performance_report now days)
          = ["$addFields", "$facet"] ∧
      readOnlyStages (InventoryQueries.inventory_turnover_analysis now days) = true ∧
      readOnlyStages (InventoryQueries.low_stock_analysis threshold default) = true ∧
      readOnlyStages (ReportsQueries.financial_performance_report now days) = true ∧
      nowLeafTurnover (InventoryQueries.inventory_turnover_analysis now days)
          = some (Bson.time now) ∧
      cutoffLeafReport (ReportsQueries.financial_performance_report now days)
          = some (Bson.time (now - days * 86400000)) := by
  intro now days threshold default
  exact ⟨rfl, rfl, rfl, rfl, rfl, rfl, rfl, rfl⟩

/-- C9 counterexample: two calls of `inventory_turnover_analysis` with
the same `days` value but different clock readings return different
pipelines, refuting the claim that the pipeline depends on `days`
alone. -/
theorem c9_turnover_not_clock_free :
    InventoryQueries.inventory_turnover_analysis 0 90
      ≠ InventoryQueries.inventory_turnover_analysis 1 90 := by
  intro h
  have h2 := congrArg nowLeafTurnover h
  rw [show nowLeafTurnover (InventoryQueries.inventory_turnover_analysis 0 90)
        = some (Bson.time 0) from rfl,
      show nowLeafTurnover (InventoryQueries.inventory_turnover_analysis 1 90)
        = some (Bson.time 1) from rfl] at h2
  have h3 : Bson.time 0 = Bson.time 1 := Option.some.inj h2
  injection h3 with h4
  exact absurd h4 (by decide)

/-- C10: `check_low_stock` resolves its threshold with Python `or`,
which treats `0` as absent: an explicit threshold of 0 yields exactly
the same call as no threshold, and the threshold actually used is the
configured default — while an explicit negative threshold is rejected
with an error. -/
theorem c10_check_low_stock_zero_threshold :
    ∀ default : Int,
      (InventoryTools.check_low_stock (some 0) default
          = InventoryTools.check_low_stock none default) ∧
      (0 ≤ default →
        ∃ r, InventoryTools.check_low_stock (some 0) default = Except.ok r ∧
          r.thresholdUsed = default) ∧
      (∀ t : Int, t < 0 →
        InventoryTools.check_low_stock (some t) default
          = Except.error "Stock threshold must be non-negative") := by
  intro default
  refine ⟨rfl, ?_, ?_⟩
  · intro hd
    refine ⟨{ thresholdUsed := default,
              pipeline := InventoryQueries.low_stock_analysis (some default) default }, ?_, rfl⟩
    unfold InventoryTools.check_low_stock
    simp [pyOrInt, not_lt.mpr hd]
  · intro t ht
    unfold InventoryTools.check_low_stock
    have hne : (t == 0) = false := by
      simp only [beq_eq_false_iff_ne, ne_eq]
      omega
    simp [pyOrInt, hne, ht]

theorem c10_witness :
    (InventoryTools.check_low_stock (some 0) 10
        = InventoryTools.check_low_stock none 10) ∧
    (∃ r, InventoryTools.check_low_stock (some 0) 10 = Except.ok r ∧
        r.thresholdUsed = 10) ∧
    (InventoryTools.check_low_stock (some (-1)) 10
        = Except.error "Stock threshold must be non-negative") :=
  ⟨(c10_check_low_stock_zero_threshold 10).1,
   (c10_check_low_stock_zero_threshold 10).2.1 (by decide),
   (c10_check_low_stock_zero_threshold 10).2.2 (-1) (by decide)⟩


theorem mem_insertSorted {α : Type} (le : α → α → Bool) (x a : α) :
    ∀ l : List α, a ∈ insertSorted le x l ↔ a = x ∨ a ∈ l := by
  intro l
  induction l with
  | nil => simp [insertSorted]
  | cons y t ih =>
    by_cases h : le x y = true
    · simp [insertSorted, h]
    · simp only [insertSorted, if_neg h, List.mem_cons, ih]
      tauto

theorem mem_sortBy {α : Type} (le : α → α → Bool) (a : α) :
    ∀ l : List α, a ∈ sortBy le l ↔ a ∈ l := by
  intro l
  induction l with
  | nil => simp [sortBy]
  | cons y t ih =>
    unfold sortBy
    unfold sortBy at ih
    simp only [List.foldr_cons]
    rw [mem_insertSorted, ih, List.mem_cons]

theorem matchesFilter_stock {tm : String → ProductDoc → Bool} {th : Int}
    {f : ProductSearchFilter} {p : ProductDoc}
    (h : DatabaseManager.matchesFilter tm th f p = true) :
    (f.in_stock_only = true → 0 < p.stock) ∧
    (f.in_stock_only = false → f.low_stock_only = true → p.stock ≤ th) := by
  unfold DatabaseManager.matchesFilter at h
  simp only [Bool.and_eq_true] at h
  have hst := h.1.2
  constructor
  · intro hin
    rw [hin] at hst
    simpa using hst
  · intro hin hlow
    rw [hin, hlow] at hst
    simpa using hst

theorem mem_search_results {tm : String → ProductDoc → Bool}
    {score : ProductDoc → Rat} {th : Int} {f : ProductSearchFilter}
    {coll : List ProductDoc} {p : ProductDoc}
    (hp : p ∈ DatabaseManager.search_results tm score th f coll) :
    DatabaseManager.matchesFilter tm th f p = true := by
  simp only [DatabaseManager.search_results] at hp
  have hp2 := List.mem_of_mem_drop (List.mem_of_mem_take hp)
  have hp3 : p ∈ coll.filter (DatabaseManager.matchesFilter tm th f) := by
    split at hp2
    · split at hp2 <;> exact (mem_sortBy _ _ _).mp hp2
    · exact (mem_sortBy _ _ _).mp hp2
  exact (List.mem_filter.mp hp3).2

/-- C4: the search query's stock clause is `{"$gt": 0}` whenever
`in_stock_only` is set — also when `low_stock_only` is set at the same
time (the `elif` makes `in_stock_only` win) — and `{"$lte": threshold}`
when only `low_stock_only` is set; consequently a search with
`in_stock_only` never returns a product with stock 0, and a search with
`low_stock_only` (and not `in_stock_only`) never returns a product with
stock above the configured threshold. -/
theorem c4_search_stock_clause :
    (∀ f : ProductSearchFilter, f.in_stock_only = true →
        stockClause f = StockClause.gtZero) ∧
    (∀ f : ProductSearchFilter, f.in_stock_only = false →
        f.low_stock_only = true → stockClause f = StockClause.leThreshold) ∧
    (∀ (coll : List ProductDoc) (tm : String → ProductDoc → Bool)
        (score : ProductDoc → Rat) (th : Int) (f : ProductSearchFilter)
        (p : ProductDoc),
        p ∈ (DatabaseManager.search_products coll none tm score th f).1 →
        (f.in_stock_only = true → 0 < p.stock) ∧
        (f.in_stock_only = false → f.low_stock_only = true → p.stock ≤ th)) := by
  refine ⟨?_, ?_, ?_⟩
  · intro f hin
    simp [stockClause, hin]
  · intro f hin hlow
    simp [stockClause, hin, hlow]
  · intro coll tm score th f p hp
    exact matchesFilter_stock (mem_search_results hp)

theorem c4_witness :
    (0 : Int) <
      ({ id := "aaaaaaaaaaaaaaaaaaaaaaa1", name := "A", description := none,
         price := 10, category := ProductCategory.electronics,
         status := ProductStatus.active, sku := "SKU-A", tags := [],
         stock := 1, createdAt := 0, updatedAt := 0 } : ProductDoc).stock :=
  (c4_search_stock_clause.2.2 fixtureProducts (fun _ _ => true) (fun _ => 0) 10
    { query := none, category := none, status := none, min_price := none,
      max_price := none, in_stock_only := true, low_stock_only := true,
      tags := none, limit := 50, skip := 0 } _
    (by
      rw [show (DatabaseManager.search_products fixtureProducts none
            (fun _ _ => true) (fun _ => 0) 10
            { query := none, category := none, status := none, min_price := none,
              max_price := none, in_stock_only := true, low_stock_only := true,
              tags := none, limit := 50, skip := 0 }).1 =
          [{ id := "aaaaaaaaaaaaaaaaaaaaaaa1", name := "A", description := none,
             price := 10, category := ProductCategory.electronics,
             status := ProductStatus.active, sku := "SKU-A", tags := [],
             stock := 1, createdAt := 0, updatedAt := 0 },
           { id := "aaaaaaaaaaaaaaaaaaaaaaa2", name := "B", description := none,
             price := 20, category := ProductCategory.books,
             status := ProductStatus.active, sku := "SKU-B", tags := [],
             stock := 2, createdAt := 0, updatedAt := 0 }] from rfl]
      exact List.mem_cons_self _ _)).1 rfl

theorem update_one_spec (pid : String) (g : ProductDoc → ProductDoc) :
    ∀ (coll : List ProductDoc) (d : ProductDoc),
      coll.find? (fun p => p.id == pid) = some d →
      ∃ l1 l2, coll = l1 ++ d :: l2 ∧ (∀ x ∈ l1, (x.id == pid) = false) ∧
        DatabaseManager.update_one coll pid g
          = (l1 ++ g d :: l2, if g d == d then 0 else 1) := by
  intro coll
  induction coll with
  | nil =>
    intro d h
    simp [List.find?] at h
  | cons a rest ih =>
    intro d h
    rw [List.find?_cons] at h
    cases hb : (a.id == pid) with
    | true =>
      rw [hb] at h
      have had : a = d := Option.some.inj h
      subst had
      refine ⟨[], rest, rfl, by simp, ?_⟩
      simp [DatabaseManager.update_one, hb]
    | false =>
      rw [hb] at h
      obtain ⟨l1, l2, he, hl1, hu⟩ := ih d h
      refine ⟨a :: l1, l2, by rw [he]; rfl, ?_, ?_⟩
      · intro x hx
        rcases List.mem_cons.mp hx with rfl | hx2
        · exact hb
        · exact hl1 x hx2
      · simp [DatabaseManager.update_one, hb, hu]

/-- C5: updating a stored product with an update that specifies only
`stock` rewrites exactly that document to a copy whose `stock` is the
new value and whose `updated_at` is refreshed — `name`, `price`,
`category`, `tags` and every other field are untouched (visible in the
record-update term of the conclusion), and every other document of the
collection is unchanged. -/
theorem c5_update_stock_only_frame :
    ∀ (coll : List ProductDoc) (pid : String) (d : ProductDoc) (n now : Int),
      validObjectId pid = true →
      coll.find? (fun p => p.id == pid) = some d →
      ∃ l1 l2, coll = l1 ++ d :: l2 ∧
        DatabaseManager.update_product coll pid (stockOnlyUpdate n) now =
          (if ({ d with stock := n, updatedAt := now } : ProductDoc) = d then none
           else some ({ d with stock := n, updatedAt := now } : ProductDoc),
           l1 ++ ({ d with stock := n, updatedAt := now } : ProductDoc) :: l2) := by
  intro coll pid d n now hval hfind
  obtain ⟨l1, l2, he, hl1, hu⟩ :=
    update_one_spec pid (fun x => DatabaseManager.applySet x (stockOnlyUpdate n) now)
      coll d hfind
  refine ⟨l1, l2, he, ?_⟩
  have happ : DatabaseManager.applySet d (stockOnlyUpdate n) now
      = { d with stock := n, updatedAt := now } := rfl
  have hid : (d.id == pid) = true := by
    have h2 := List.find?_some hfind
    exact h2
  unfold DatabaseManager.update_product
  rw [show emptyUpdate (stockOnlyUpdate n) = false from rfl, hval]
  simp only [Bool.false_eq_true, if_false, Bool.not_true, hu, happ]
  by_cases hd : ({ d with stock := n, updatedAt := now } : ProductDoc) = d
  · have hbd : (({ d with stock := n, updatedAt := now } : ProductDoc) == d) = true := by
      simp [hd]
    simp [hbd, hd]
  · have hbd : (({ d with stock := n, updatedAt := now } : ProductDoc) == d) = false := by
      simp [hd]
    have hget : DatabaseManager.get_product_by_id
        (l1 ++ ({ d with stock := n, updatedAt := now } : ProductDoc) :: l2) pid
        = some ({ d with stock := n, updatedAt := now } : ProductDoc) := by
      unfold DatabaseManager.get_product_by_id
      rw [if_pos hval, List.find?_append,
        List.find?_eq_none.mpr (by intro x hx; simp [hl1 x hx]),
        List.find?_cons]
      rw [show ((({ d with stock := n, updatedAt := now } : ProductDoc).id == pid))
            = true from hid]
      rfl
    simp [hbd, hd, hget]

theorem c5_witness :
    ∃ l1 l2, [updateWitnessDoc] = l1 ++ updateWitnessDoc :: l2 ∧
      DatabaseManager.update_product [updateWitnessDoc] "aaaaaaaaaaaaaaaaaaaaaaa1"
          (stockOnlyUpdate 5) 7 =
        (if updateWitnessDocAfter = updateWitnessDoc then none
         else some updateWitnessDocAfter,
         l1 ++ updateWitnessDocAfter :: l2) :=
  c5_update_stock_only_frame [updateWitnessDoc] "aaaaaaaaaaaaaaaaaaaaaaa1"
    updateWitnessDoc 5 7 (by decide) rfl
